import Mathlib

/-!
Verification of the roast-generation pipeline (`src/app.py`).

The Python program is shallowly embedded: JSON records become structures whose
fields are `Option`-typed (outer `none` = key absent; for string-valued fields
the inner `Option` distinguishes a JSON null from a string, mirroring
`dict.get`), HTTP responses and the completion call become oracles passed in as
explicit parameters, and the Streamlit display / token-file side effects become
explicit state passing over a state record `S`.  `st.stop()` is modelled by
returning `Except.error` carrying the state at the halt.
-/

namespace Roast

/-- A JSON string field value: `none` models JSON null, `some s` a string. -/
abbrev PyStrVal := Option String

/-- Python `str()` as applied by f-string interpolation: `None` renders as
the four-character string. -/
def pyStr : PyStrVal → String
  | none => "None"
  | some s => s

/-- Python `dict.get(key, default)` for a string-valued key: the default is
returned only when the key is absent; a present null is returned as-is. -/
def dictGet (field : Option PyStrVal) (default : String) : PyStrVal :=
  match field with
  | none => some default
  | some v => v

/-- Python `dict.get(key, default)` for a numeric key (modelled on ℚ). -/
def dictGetNum (field : Option ℚ) (default : ℚ) : ℚ :=
  field.getD default

/-- Floor of a rational, computably (`Int.fdiv` is flooring division). -/
def ratFloor (q : ℚ) : ℤ :=
  Int.fdiv q.num (q.den : ℤ)

/-- Round to the nearest integer, ties to even (the rounding used by Python's
fixed-point formatting). -/
def roundHalfEven (q : ℚ) : ℤ :=
  let f := ratFloor q
  if q - f < 1/2 then f
  else if q - f > 1/2 then f + 1
  else if f % 2 = 0 then f else f + 1

/-- Left-pad a digit string with zeros up to width `w`. -/
def padZeros (w : Nat) (s : String) : String :=
  String.mk (List.replicate (w - s.length) '0') ++ s

/-- Python's fixed-point format specifier (`:.2f` is `formatFixed q 2`,
`:.1f` is `formatFixed q 1`). -/
def formatFixed (q : ℚ) (prec : Nat) : String :=
  let sgn := if q < 0 then "-" else ""
  let n := (roundHalfEven (|q| * 10 ^ prec)).toNat
  sgn ++ toString (n / 10 ^ prec) ++ "." ++ padZeros prec (toString (n % 10 ^ prec))

/-- The athlete profile JSON object (`/athlete` response).  Each optional
field is `none` when the key is absent, `some none` when present with a JSON
null, `some (some s)` when present with string `s`. -/
structure Athlete where
  firstname : Option PyStrVal
  lastname : Option PyStrVal
  bio : Option PyStrVal
  city : Option PyStrVal
  country : Option PyStrVal
  sex : Option PyStrVal
deriving DecidableEq, Repr

/-- One activity JSON object (`/athlete/activities` element).  Numeric fields
carry ℚ; outer `none` = key absent. -/
structure Activity where
  name : Option PyStrVal
  type : Option PyStrVal
  distance : Option ℚ
  moving_time : Option ℚ
  average_speed : Option ℚ
  total_elevation_gain : Option ℚ
  start_date_local : Option PyStrVal
  description : Option PyStrVal
deriving DecidableEq, Repr

/-! ### Prompt construction (`construct_prompt`, app.py lines 132-184)

Each Python local becomes a named definition; the f-strings become explicit
concatenations; the `for` loop with `prompt +=` becomes the accumulator
recursion `promptLoop` started at index 1 (Python `enumerate(activities, 1)`).
-/

/-- `first_name = athlete.get('firstname', 'Athlete')` as rendered. -/
def promptFirstName (athlete : Athlete) : String :=
  pyStr (dictGet athlete.firstname "Athlete")

/-- `last_name = athlete.get('lastname', '')` as rendered. -/
def promptLastName (athlete : Athlete) : String :=
  pyStr (dictGet athlete.lastname "")

/-- `bio = athlete.get('bio', 'No bio available.')` as rendered. -/
def promptBio (athlete : Athlete) : String :=
  pyStr (dictGet athlete.bio "No bio available.")

/-- `city = athlete.get('city', 'Unknown city')` as rendered. -/
def promptCity (athlete : Athlete) : String :=
  pyStr (dictGet athlete.city "Unknown city")

/-- `country = athlete.get('country', 'Unknown country')` as rendered. -/
def promptCountry (athlete : Athlete) : String :=
  pyStr (dictGet athlete.country "Unknown country")

/-- `sex = athlete.get('sex', 'Not specified')` as rendered. -/
def promptSex (athlete : Athlete) : String :=
  pyStr (dictGet athlete.sex "Not specified")

/-- `name = activity.get('name', 'Unnamed Activity')` as rendered. -/
def promptActName (activity : Activity) : String :=
  pyStr (dictGet activity.name "Unnamed Activity")

/-- `activity_type = activity.get('type', 'Unknown')` as rendered. -/
def promptActType (activity : Activity) : String :=
  pyStr (dictGet activity.type "Unknown")

/-- `distance = activity.get('distance', 0) / 1000`. -/
def promptDistance (activity : Activity) : ℚ :=
  dictGetNum activity.distance 0 / 1000

/-- `moving_time = activity.get('moving_time', 0) / 60`. -/
def promptMovingTime (activity : Activity) : ℚ :=
  dictGetNum activity.moving_time 0 / 60

/-- `average_speed = activity.get('average_speed', 0) * 3.6`. -/
def promptAverageSpeed (activity : Activity) : ℚ :=
  dictGetNum activity.average_speed 0 * (36 / 10)

/-- `elevation_gain = activity.get('total_elevation_gain', 0)`. -/
def promptElevationGain (activity : Activity) : ℚ :=
  dictGetNum activity.total_elevation_gain 0

/-- `start_date = activity.get('start_date_local', 'Unknown Date')` rendered. -/
def promptStartDate (activity : Activity) : String :=
  pyStr (dictGet activity.start_date_local "Unknown Date")

/-- `description = activity.get('description', 'No description provided.')`. -/
def promptDescriptionRaw (activity : Activity) : String :=
  pyStr (dictGet activity.description "No description provided.")

/-- The truncation on line 167:
`(description[:200] + '...') if len(description) > 200 else description`. -/
def promptDescription (activity : Activity) : String :=
  let description := promptDescriptionRaw activity
  if description.length > 200 then description.take 200 ++ "..." else description

/-- The per-activity f-string appended on lines 169-179. -/
def activityBlock (idx : Nat) (activity : Activity) : String :=
  "\nActivity " ++ toString idx ++ ":\n- Name: " ++ promptActName activity
    ++ "\n- Date: " ++ promptStartDate activity
    ++ "\n- Type: " ++ promptActType activity
    ++ "\n- Distance: " ++ formatFixed (promptDistance activity) 2 ++ " km"
    ++ "\n- Moving Time: " ++ formatFixed (promptMovingTime activity) 1 ++ " minutes"
    ++ "\n- Average Speed: " ++ formatFixed (promptAverageSpeed activity) 2 ++ " km/h"
    ++ "\n- Elevation Gain: " ++ formatFixed (promptElevationGain activity) 2 ++ " m"
    ++ "\n- Description: " ++ promptDescription activity ++ "\n"

/-- The initial prompt f-string (lines 142-152). -/
def promptHeader (athlete : Athlete) : String :=
  "\nYou are a sarcastic fitness coach. Create a humorous and witty roast for "
    ++ promptFirstName athlete ++ " " ++ promptLastName athlete
    ++ " based on their bio and recent activities.\n\nBio:\n- Name: "
    ++ promptFirstName athlete ++ " " ++ promptLastName athlete
    ++ "\n- Gender: " ++ promptSex athlete
    ++ "\n- Location: " ++ promptCity athlete ++ ", " ++ promptCountry athlete
    ++ "\n- Bio Description: " ++ promptBio athlete
    ++ "\n\nRecent Activities:\n"

/-- The closing instruction appended on lines 181-183. -/
def promptClosing : String :=
  "\nBe creative, but keep it friendly and avoid offensive language. The roast should be in three paragraphs, each focusing on different aspects of the bio and activities.\n"

/-- The `for idx, activity in enumerate(activities, 1)` loop accumulating
`prompt += ...` (lines 155-179). -/
def promptLoop : Nat → List Activity → String → String
  | _, [], prompt => prompt
  | idx, activity :: rest, prompt =>
      promptLoop (idx + 1) rest (prompt ++ activityBlock idx activity)

/-- `construct_prompt(athlete, activities)` (lines 132-184). -/
def construct_prompt (athlete : Athlete) (activities : List Activity) : String :=
  promptLoop 1 activities (promptHeader athlete) ++ promptClosing

/-! ### Effect state and oracles

`S` collects the program's observable effects: the token file
(`strava_tokens.json`), everything written to the page via `st.write` /
`st.error` / `st.title` / `st.subheader` (in order), and call counters for the
outbound HTTP requests.  `st.stop()` is `Except.error` carrying the state at
the halt. -/

/-- A parsed token record (`response.json()` of the token endpoint). -/
structure Tokens where
  access_token : String
  refresh_token : String
  expires_at : ℤ
deriving DecidableEq, Repr

/-- Observable program state. -/
structure S where
  tokenFile : Option Tokens
  displayed : List String
  exchangeCalls : Nat
  refreshCalls : Nat
  fetchCalls : Nat
deriving DecidableEq, Repr

/-- `st.write` / `st.error` etc.: append one message to the page. -/
def display (s : S) (msg : String) : S :=
  { s with displayed := s.displayed ++ [msg] }

/-- Total number of outbound HTTP calls recorded in a state. -/
def networkCalls (s : S) : Nat :=
  s.exchangeCalls + s.refreshCalls + s.fetchCalls

/-- Response of the token endpoint: HTTP 200 with a parsed token record, or a
non-success status whose `response.text` is `body`. -/
inductive TokenResp where
  | ok (tokens : Tokens)
  | err (body : String)
deriving DecidableEq, Repr

/-- Response of a bearer-authenticated GET: HTTP 200 with parsed JSON `val`,
or a non-success status with `response.text = body`. -/
inductive FetchResp (α : Type) where
  | ok (val : α)
  | err (body : String)
deriving DecidableEq, Repr

/-- Oracle for the network traffic of the token-management functions. -/
structure AuthEnv where
  /-- Response to POSTing the configured authorization code. -/
  exchangeResp : TokenResp
  /-- Response to POSTing a given refresh token. -/
  refreshResp : String → TokenResp
  /-- `int(time.time())` at the expiry check. -/
  now : ℤ

/-! ### Token management (app.py lines 36-95) -/

/-- `save_tokens(tokens)` (lines 93-95): overwrite the token file. -/
def save_tokens (tokens : Tokens) (s : S) : S :=
  { s with tokenFile := some tokens }

/-- `exchange_authorization_code(auth_code)` (lines 55-72). -/
def exchange_authorization_code (env : AuthEnv) (s : S) : Option Tokens × S :=
  let s := { s with exchangeCalls := s.exchangeCalls + 1 }
  match env.exchangeResp with
  | .ok tokens => (some tokens, save_tokens tokens s)
  | .err body =>
      (none, display s ("Error exchanging authorization code: " ++ body))

/-- `refresh_access_token(refresh_token)` (lines 74-91). -/
def refresh_access_token (env : AuthEnv) (refresh_token : String) (s : S) :
    Option Tokens × S :=
  let s := { s with refreshCalls := s.refreshCalls + 1 }
  match env.refreshResp refresh_token with
  | .ok tokens => (some tokens, save_tokens tokens s)
  | .err body =>
      (none, display s ("Error refreshing access token: " ++ body))

/-- Lines 37-44 of `get_access_token`: read the token file if it exists,
otherwise exchange the authorization code, stopping on failure. -/
def readOrExchange (env : AuthEnv) (s : S) : Except S (Tokens × S) :=
  match s.tokenFile with
  | some tokens => .ok (tokens, s)
  | none =>
      match exchange_authorization_code env s with
      | (some tokens, s) => .ok (tokens, s)
      | (none, s) => .error (display s "Failed to obtain tokens.")

/-- `get_access_token()` (lines 36-53). -/
def get_access_token (env : AuthEnv) (s : S) : Except S (String × S) :=
  match readOrExchange env s with
  | .error sh => .error sh
  | .ok (tokens, s) =>
      if tokens.expires_at < env.now then
        match refresh_access_token env tokens.refresh_token s with
        | (some tokens, s) => .ok (tokens.access_token, s)
        | (none, s) => .error (display s "Failed to refresh tokens.")
      else
        .ok (tokens.access_token, s)

/-! ### Data fetch, roast generation, and `main` (app.py lines 101-273) -/

/-- Oracles for the data-fetch and completion calls made inside `main`, plus
the state of the detail checkbox. -/
structure MainEnv where
  /-- Response of the `/athlete` GET. -/
  athleteResp : FetchResp Athlete
  /-- Response of the `/athlete/activities` GET. -/
  activitiesResp : FetchResp (List Activity)
  /-- Outcome of `openai.chat.completions.create` as a function of the user
  message: the generated content, or the string rendering of the raised
  exception. -/
  completionResp : String → Except String String
  /-- The "Show detailed activities with descriptions" checkbox. -/
  showDetails : Bool

/-- `get_athlete_profile(access_token)` (lines 101-112). -/
def get_athlete_profile (menv : MainEnv) (access_token : String) (s : S) :
    Option Athlete × S :=
  let _ := access_token
  let s := { s with fetchCalls := s.fetchCalls + 1 }
  match menv.athleteResp with
  | .ok athlete => (some athlete, s)
  | .err body =>
      (none, display s ("Error fetching athlete profile: " ++ body))

/-- `get_activities(access_token, num_activities)` (lines 114-126): on a
non-success status the error is displayed and the empty list returned. -/
def get_activities (menv : MainEnv) (access_token : String)
    (num_activities : Nat) (s : S) : List Activity × S :=
  let _ := access_token
  let _ := num_activities
  let s := { s with fetchCalls := s.fetchCalls + 1 }
  match menv.activitiesResp with
  | .ok activities => (activities, s)
  | .err body =>
      ([], display s ("Error fetching activities: " ++ body))

/-- `generate_roast(prompt)` (lines 190-205): the completion content on
success, the formatted exception otherwise. -/
def generate_roast (completionResp : String → Except String String)
    (prompt : String) : String :=
  match completionResp prompt with
  | .ok roast => roast
  | .error e => "Error generating roast: " ++ e

/-! Detail-view locals (lines 243-255); the code repeats the conversions of
`construct_prompt` verbatim, so each local is embedded again. -/

/-- Detail view: `name = activity.get('name', 'Unnamed Activity')`. -/
def detailActName (activity : Activity) : String :=
  pyStr (dictGet activity.name "Unnamed Activity")

/-- Detail view: `activity_type = activity.get('type', 'Unknown')`. -/
def detailActType (activity : Activity) : String :=
  pyStr (dictGet activity.type "Unknown")

/-- Detail view: `distance = activity.get('distance', 0) / 1000`. -/
def detailDistance (activity : Activity) : ℚ :=
  dictGetNum activity.distance 0 / 1000

/-- Detail view: `moving_time = activity.get('moving_time', 0) / 60`. -/
def detailMovingTime (activity : Activity) : ℚ :=
  dictGetNum activity.moving_time 0 / 60

/-- Detail view: `average_speed = activity.get('average_speed', 0) * 3.6`. -/
def detailAverageSpeed (activity : Activity) : ℚ :=
  dictGetNum activity.average_speed 0 * (36 / 10)

/-- Detail view: `elevation_gain = activity.get('total_elevation_gain', 0)`. -/
def detailElevationGain (activity : Activity) : ℚ :=
  dictGetNum activity.total_elevation_gain 0

/-- Detail view: `start_date = activity.get('start_date_local', ...)`. -/
def detailStartDate (activity : Activity) : String :=
  pyStr (dictGet activity.start_date_local "Unknown Date")

/-- Detail view: `description = activity.get('description', ...)`. -/
def detailDescriptionRaw (activity : Activity) : String :=
  pyStr (dictGet activity.description "No description provided.")

/-- Detail view truncation (line 255), identical to line 167. -/
def detailDescription (activity : Activity) : String :=
  let description := detailDescriptionRaw activity
  if description.length > 200 then description.take 200 ++ "..." else description

/-- The nine `st.write` calls for one activity in the detail view
(lines 257-265), in order. -/
def detailBlock (idx : Nat) (activity : Activity) : List String :=
  ["**Activity " ++ toString idx ++ ": " ++ detailActName activity ++ "**",
   "- **Date:** " ++ detailStartDate activity,
   "- **Type:** " ++ detailActType activity,
   "- **Distance:** " ++ formatFixed (detailDistance activity) 2 ++ " km",
   "- **Moving Time:** " ++ formatFixed (detailMovingTime activity) 1 ++ " minutes",
   "- **Average Speed:** " ++ formatFixed (detailAverageSpeed activity) 2 ++ " km/h",
   "- **Elevation Gain:** " ++ formatFixed (detailElevationGain activity) 2 ++ " m",
   "- **Description:** " ++ detailDescription activity,
   "---"]

/-- Main's bio-field locals (lines 234-237); note the firstname / lastname
defaults here are the empty string, unlike `construct_prompt`. -/
def mainFirstName (athlete : Athlete) : String :=
  pyStr (dictGet athlete.firstname "")

/-- Main: `athlete.get('lastname', '')` as rendered. -/
def mainLastName (athlete : Athlete) : String :=
  pyStr (dictGet athlete.lastname "")

/-- Main: `athlete.get('sex', 'Not specified')` as rendered. -/
def mainSex (athlete : Athlete) : String :=
  pyStr (dictGet athlete.sex "Not specified")

/-- Main: `athlete.get('city', 'Unknown city')` as rendered. -/
def mainCity (athlete : Athlete) : String :=
  pyStr (dictGet athlete.city "Unknown city")

/-- Main: `athlete.get('country', 'Unknown country')` as rendered. -/
def mainCountry (athlete : Athlete) : String :=
  pyStr (dictGet athlete.country "Unknown country")

/-- Main: `athlete.get('bio', 'No bio available.')` as rendered. -/
def mainBio (athlete : Athlete) : String :=
  pyStr (dictGet athlete.bio "No bio available.")

/-- The bio display block (lines 233-238). -/
def mainBioBlock (athlete : Athlete) (s : S) : S :=
  let s := display s "Your Bio"
  let s := display s ("**Name:** " ++ mainFirstName athlete ++ " " ++ mainLastName athlete)
  let s := display s ("**Gender:** " ++ mainSex athlete)
  let s := display s ("**Location:** " ++ mainCity athlete ++ ", " ++ mainCountry athlete)
  let s := display s ("**Bio Description:** " ++ mainBio athlete)
  display s "---"

/-- The `for idx, activity in enumerate(activities, 1)` detail loop
(lines 243-265). -/
def detailLoop : Nat → List Activity → S → S
  | _, [], s => s
  | idx, activity :: rest, s =>
      detailLoop (idx + 1) rest ((detailBlock idx activity).foldl display s)

/-- The `st.title` text (line 212). -/
def titleMsg : String := "Roast My Strava"

/-- The `st.write` intro text (line 213). -/
def introMsg : String :=
  "This app fetches your Strava bio and recent activities to provide an AI-generated roast."

/-- `main()` (lines 211-273). -/
def main (env : AuthEnv) (menv : MainEnv) (s0 : S) : Except S S :=
  let s := display s0 titleMsg
  let s := display s introMsg
  match get_access_token env s with
  | .error sh => .error sh
  | .ok (access_token, s) =>
      match get_athlete_profile menv access_token s with
      | (none, s) => .ok (display s "Could not retrieve athlete profile.")
      | (some athlete, s) =>
          let (activities, s) := get_activities menv access_token 10 s
          if activities.isEmpty then
            .ok (display s "No activities found.")
          else
            let prompt := construct_prompt athlete activities
            let roast := generate_roast menv.completionResp prompt
            let s := mainBioBlock athlete s
            let s := if menv.showDetails then
                       detailLoop 1 activities (display s "Recent Activities")
                     else s
            let s := display s "Your Personalized Roast"
            .ok (display s roast)

/-! ### Startup configuration validation (app.py lines 17-25) -/

/-- The four values read from the environment (lines 17-20); `none` models a
variable that is not set, `some ""` one set to the empty string. -/
structure Config where
  CLIENT_ID : Option String
  CLIENT_SECRET : Option String
  AUTHORIZATION_CODE : Option String
  OPENAI_API_KEY : Option String
deriving DecidableEq, Repr

/-- Python truthiness test `not x` for an `os.getenv` result: true for `None`
and for the empty string. -/
def falsyEnv : Option String → Bool
  | none => true
  | some v => v = ""

/-- The condition on line 23. -/
def missingCredentials (c : Config) : Bool :=
  falsyEnv c.CLIENT_ID || falsyEnv c.CLIENT_SECRET ||
    falsyEnv c.AUTHORIZATION_CODE || falsyEnv c.OPENAI_API_KEY

/-- Module-level validation (lines 22-25): `st.error` + `st.stop()` when any
credential is missing. -/
def startup (c : Config) (s : S) : Except S S :=
  if missingCredentials c then
    .error (display s "Please ensure all credentials are set in the .env file.")
  else
    .ok s

/-- The whole program: module-level validation, then `main()`. -/
def program (c : Config) (env : AuthEnv) (menv : MainEnv) (s0 : S) :
    Except S S :=
  match startup c s0 with
  | .error sh => .error sh
  | .ok s => main env menv s

/-! ### Helper lemmas -/

theorem sappend_assoc (a b c : String) : a ++ b ++ c = a ++ (b ++ c) := by
  rcases a with ⟨a⟩; rcases b with ⟨b⟩; rcases c with ⟨c⟩
  show String.mk (a ++ b ++ c) = String.mk (a ++ (b ++ c))
  rw [List.append_assoc]

theorem sappend_empty (a : String) : a ++ "" = a := by
  rcases a with ⟨a⟩
  show String.mk (a ++ []) = String.mk a
  rw [List.append_nil]

/-- Concatenation of a list of strings, in order. -/
def joinAll : List String → String
  | [] => ""
  | s :: rest => s ++ joinAll rest

/-- The `for` loop of `construct_prompt` appends one block per activity, in
input order, numbered from `idx`. -/
theorem promptLoop_eq (activities : List Activity) :
    ∀ (idx : Nat) (acc : String),
      promptLoop idx activities acc =
        acc ++ joinAll ((activities.enumFrom idx).map
          fun p => activityBlock p.1 p.2) := by
  induction activities with
  | nil => intro idx acc; simp [promptLoop, joinAll, sappend_empty]
  | cons a rest ih =>
      intro idx acc
      simp only [promptLoop, List.enumFrom, List.map, joinAll, ih,
        sappend_assoc]

@[simp] theorem display_tokenFile (s : S) (msg : String) :
    (display s msg).tokenFile = s.tokenFile := rfl

@[simp] theorem display_exchangeCalls (s : S) (msg : String) :
    (display s msg).exchangeCalls = s.exchangeCalls := rfl

@[simp] theorem display_refreshCalls (s : S) (msg : String) :
    (display s msg).refreshCalls = s.refreshCalls := rfl

@[simp] theorem display_fetchCalls (s : S) (msg : String) :
    (display s msg).fetchCalls = s.fetchCalls := rfl

@[simp] theorem display_displayed (s : S) (msg : String) :
    (display s msg).displayed = s.displayed ++ [msg] := rfl

/-- `get_access_token` on a present, unexpired token file: returns the stored
access token and changes nothing. -/
theorem get_access_token_fresh (env : AuthEnv) (s : S) (t : Tokens)
    (hfile : s.tokenFile = some t) (hexp : ¬ t.expires_at < env.now) :
    get_access_token env s = .ok (t.access_token, s) := by
  simp [get_access_token, readOrExchange, hfile, hexp]

/-! ### Concrete instances used by witnesses and counterexamples -/

/-- An athlete record with every optional key absent. -/
def emptyAthlete : Athlete :=
  { firstname := none, lastname := none, bio := none,
    city := none, country := none, sex := none }

/-- An athlete record in which every optional key is present with value null. -/
def nullAthlete : Athlete :=
  { firstname := some none, lastname := some none, bio := some none,
    city := some none, country := some none, sex := some none }

/-- A 201-character description. -/
def longDesc : String := String.mk (List.replicate 201 'a')

/-- An activity whose description key holds `longDesc`. -/
def actLong : Activity :=
  { name := none, type := none, distance := none, moving_time := none,
    average_speed := none, total_elevation_gain := none,
    start_date_local := none, description := some (some longDesc) }

/-- A stored token record. -/
def cTokens : Tokens :=
  { access_token := "stored-access", refresh_token := "stored-refresh",
    expires_at := 100 }

/-- A refreshed token record. -/
def cTokens2 : Tokens :=
  { access_token := "new-access", refresh_token := "new-refresh",
    expires_at := 900 }

/-- An initial state whose token file holds `cTokens`. -/
def sInit : S :=
  { tokenFile := some cTokens, displayed := [], exchangeCalls := 0,
    refreshCalls := 0, fetchCalls := 0 }

/-- An initial state with no token file. -/
def sNoFile : S :=
  { tokenFile := none, displayed := [], exchangeCalls := 0,
    refreshCalls := 0, fetchCalls := 0 }

/-- An auth oracle: current time 50 (so `cTokens` is not expired), refresh
succeeds with `cTokens2`. -/
def cEnv : AuthEnv :=
  { exchangeResp := .err "exchange denied",
    refreshResp := fun _ => .ok cTokens2, now := 50 }

/-- An auth oracle: current time 500 (so `cTokens` is expired). -/
def cEnvLate : AuthEnv :=
  { exchangeResp := .err "exchange denied",
    refreshResp := fun _ => .ok cTokens2, now := 500 }

/-- Main oracle: profile fetch succeeds with `emptyAthlete`, activities fetch
yields the empty list, the completion call raises. -/
def cMainEnvEmpty : MainEnv :=
  { athleteResp := .ok emptyAthlete, activitiesResp := .ok [],
    completionResp := fun _ => .error "api down", showDetails := false }

/-- Main oracle: one activity, completion call raises. -/
def cMainEnvOne : MainEnv :=
  { athleteResp := .ok emptyAthlete, activitiesResp := .ok [actLong],
    completionResp := fun _ => .error "api down", showDetails := false }

/-- Main oracle: the activities fetch returns a non-success status. -/
def cMainEnvFail : MainEnv :=
  { athleteResp := .ok emptyAthlete, activitiesResp := .err "boom",
    completionResp := fun _ => .error "api down", showDetails := false }

/-- An activity whose description key is present with a JSON null. -/
def actNullDesc : Activity :=
  { name := none, type := none, distance := none, moving_time := none,
    average_speed := none, total_elevation_gain := none,
    start_date_local := none, description := some none }

/-! ### The description path with Python's runtime errors made explicit

Lines 163-167 (and their copy at 251-255) apply `len(...)` to the result of
`activity.get('description', ...)`.  When the key is present with a JSON
null, that value is `None` and `len(None)` raises `TypeError`, so no
description is rendered at all; `promptDescription`/`detailDescription`
above describe the rendering only on the non-raising domain. -/

/-- Lines 163-167 as a fallible computation: `none` models the `TypeError`
raised by `len(None)` when the description key holds null. -/
def promptDescriptionPy (activity : Activity) : Option String :=
  match dictGet activity.description "No description provided." with
  | none => none
  | some description =>
      some (if description.length > 200 then description.take 200 ++ "..."
            else description)

/-- Lines 251-255 (the detail-view copy of the truncation) as a fallible
computation; identical to `promptDescriptionPy`, as the code is duplicated. -/
def detailDescriptionPy (activity : Activity) : Option String :=
  match dictGet activity.description "No description provided." with
  | none => none
  | some description =>
      some (if description.length > 200 then description.take 200 ++ "..."
            else description)

/-! ### Claim theorems -/

/-- C1: for an activity whose description key holds a string longer than 200
characters, the description value interpolated into the prompt's activity
block (`promptDescription`, used by `activityBlock` in `construct_prompt`) and
into the detail view of `main` (`detailDescription`, used by `detailBlock`)
equals the first 200 characters followed by "..."; a description of length at
most 200 is rendered unchanged at both sites. -/
theorem c1_description_truncation (activity : Activity) (s : String)
    (hdesc : activity.description = some (some s)) :
    (s.length > 200 →
        promptDescription activity = s.take 200 ++ "..." ∧
        detailDescription activity = s.take 200 ++ "...") ∧
    (s.length ≤ 200 →
        promptDescription activity = s ∧ detailDescription activity = s) := by
  have h1 : promptDescriptionRaw activity = s := by
    simp [promptDescriptionRaw, dictGet, hdesc, pyStr]
  have h2 : detailDescriptionRaw activity = s := by
    simp [detailDescriptionRaw, dictGet, hdesc, pyStr]
  refine ⟨fun h => ?_, fun h => ?_⟩
  · constructor <;> simp [promptDescription, detailDescription, h1, h2, h]
  · constructor <;>
      simp [promptDescription, detailDescription, h1, h2, Nat.not_lt.mpr h]

set_option maxRecDepth 4000 in
/-- Witness for C1 at a concrete 201-character description. -/
theorem c1_description_truncation_witness :
    actLong.description = some (some longDesc) ∧ longDesc.length > 200 ∧
    promptDescription actLong = longDesc.take 200 ++ "..." ∧
    detailDescription actLong = longDesc.take 200 ++ "..." :=
  ⟨rfl, by decide,
   ((c1_description_truncation actLong longDesc rfl).1 (by decide)).1,
   ((c1_description_truncation actLong longDesc rfl).1 (by decide)).2⟩

/-- C9: `construct_prompt` is a pure function: equal inputs give equal prompt
text, and the prompt is exactly the fixed header, one numbered block per
activity in input order (numbered from 1), and the fixed closing
instruction. -/
theorem c9_construct_prompt_pure (athlete : Athlete)
    (activities : List Activity) :
    (∀ athlete2 activities2, athlete = athlete2 → activities = activities2 →
        construct_prompt athlete activities =
          construct_prompt athlete2 activities2) ∧
    construct_prompt athlete activities =
      promptHeader athlete ++
        joinAll ((activities.enumFrom 1).map fun p => activityBlock p.1 p.2) ++
        promptClosing := by
  refine ⟨fun athlete2 activities2 h1 h2 => by rw [h1, h2], ?_⟩
  rw [construct_prompt, promptLoop_eq]

/-- Witness for C9 at concrete inputs. -/
theorem c9_construct_prompt_pure_witness :
    construct_prompt emptyAthlete [actLong] =
        construct_prompt emptyAthlete [actLong] ∧
    construct_prompt emptyAthlete [actLong] =
      promptHeader emptyAthlete ++
        joinAll (([actLong].enumFrom 1).map fun p => activityBlock p.1 p.2) ++
        promptClosing :=
  ⟨(c9_construct_prompt_pure emptyAthlete [actLong]).1 emptyAthlete [actLong]
      rfl rfl,
   (c9_construct_prompt_pure emptyAthlete [actLong]).2⟩

/-- C10 counterexample: an activity whose description key is present with a
JSON null.  The default is indeed not substituted, but the null is not
rendered as-is either: line 167 (and line 255 in the detail view) evaluates
`len(description)` on `None`, which raises `TypeError`, so nothing is
rendered for this record. -/
theorem c10_counterexample :
    actNullDesc.description = some none ∧
    promptDescriptionPy actNullDesc = none ∧
    detailDescriptionPy actNullDesc = none := by decide

/-- C10 amended: the named default of every optional field, at both sites, is
substituted exactly when the key is absent.  A key present with a JSON null
is never replaced by the default: the athlete fields and the activity
name/type/date fields are rendered as Python renders `None` (the string
"None"), while a present-null activity description makes `len(description)`
raise `TypeError` (modelled by `promptDescriptionPy`/`detailDescriptionPy`
returning `none`), so no rendering occurs there at all; a description
present with a string never raises. -/
theorem c10_null_not_defaulted (athlete : Athlete) (activity : Activity) :
    ((athlete.firstname = none →
        promptFirstName athlete = "Athlete" ∧ mainFirstName athlete = "") ∧
     (athlete.firstname = some none →
        promptFirstName athlete = "None" ∧ mainFirstName athlete = "None" ∧
        promptFirstName athlete ≠ "Athlete")) ∧
    ((athlete.lastname = none →
        promptLastName athlete = "" ∧ mainLastName athlete = "") ∧
     (athlete.lastname = some none →
        promptLastName athlete = "None" ∧ mainLastName athlete = "None" ∧
        promptLastName athlete ≠ "")) ∧
    ((athlete.bio = none →
        promptBio athlete = "No bio available." ∧
        mainBio athlete = "No bio available.") ∧
     (athlete.bio = some none →
        promptBio athlete = "None" ∧ mainBio athlete = "None" ∧
        promptBio athlete ≠ "No bio available.")) ∧
    ((athlete.city = none →
        promptCity athlete = "Unknown city" ∧
        mainCity athlete = "Unknown city") ∧
     (athlete.city = some none →
        promptCity athlete = "None" ∧ mainCity athlete = "None" ∧
        promptCity athlete ≠ "Unknown city")) ∧
    ((athlete.country = none →
        promptCountry athlete = "Unknown country" ∧
        mainCountry athlete = "Unknown country") ∧
     (athlete.country = some none →
        promptCountry athlete = "None" ∧ mainCountry athlete = "None" ∧
        promptCountry athlete ≠ "Unknown country")) ∧
    ((athlete.sex = none →
        promptSex athlete = "Not specified" ∧
        mainSex athlete = "Not specified") ∧
     (athlete.sex = some none →
        promptSex athlete = "None" ∧ mainSex athlete = "None" ∧
        promptSex athlete ≠ "Not specified")) ∧
    ((activity.name = none →
        promptActName activity = "Unnamed Activity" ∧
        detailActName activity = "Unnamed Activity") ∧
     (activity.name = some none →
        promptActName activity = "None" ∧ detailActName activity = "None")) ∧
    ((activity.type = none →
        promptActType activity = "Unknown" ∧
        detailActType activity = "Unknown") ∧
     (activity.type = some none →
        promptActType activity = "None" ∧ detailActType activity = "None")) ∧
    ((activity.start_date_local = none →
        promptStartDate activity = "Unknown Date" ∧
        detailStartDate activity = "Unknown Date") ∧
     (activity.start_date_local = some none →
        promptStartDate activity = "None" ∧
        detailStartDate activity = "None")) ∧
    ((activity.description = none →
        promptDescriptionPy activity = some "No description provided." ∧
        detailDescriptionPy activity = some "No description provided.") ∧
     (activity.description = some none →
        promptDescriptionPy activity = none ∧
        detailDescriptionPy activity = none) ∧
     (∀ str, activity.description = some (some str) →
        promptDescriptionPy activity ≠ none ∧
        detailDescriptionPy activity ≠ none)) := by
  refine ⟨⟨fun hfa => ?_, fun hfn => ?_⟩, ⟨fun hla => ?_, fun hln => ?_⟩,
          ⟨fun hba => ?_, fun hbn => ?_⟩, ⟨fun hca => ?_, fun hcn => ?_⟩,
          ⟨fun hna => ?_, fun hnn => ?_⟩, ⟨fun hsa => ?_, fun hsn => ?_⟩,
          ⟨fun hxa => ?_, fun hxn => ?_⟩, ⟨fun hya => ?_, fun hyn => ?_⟩,
          ⟨fun hza => ?_, fun hzn => ?_⟩,
          ⟨fun hda => ?_, fun hdn => ?_, fun str hds => ?_⟩⟩ <;>
    simp_all [promptFirstName, mainFirstName, promptLastName, mainLastName,
      promptBio, mainBio, promptCity, mainCity, promptCountry, mainCountry,
      promptSex, mainSex, promptActName, detailActName, promptActType,
      detailActType, promptStartDate, detailStartDate, promptDescriptionPy,
      detailDescriptionPy, dictGet, pyStr]
  decide

/-- Witness for the amended C10 at the all-null athlete record and the
null-description activity record. -/
theorem c10_null_not_defaulted_witness :
    nullAthlete.bio = some none ∧ nullAthlete.firstname = some none ∧
    actNullDesc.description = some none ∧
    promptBio nullAthlete = "None" ∧ mainBio nullAthlete = "None" ∧
    promptFirstName nullAthlete = "None" ∧
    promptFirstName nullAthlete ≠ "Athlete" ∧
    promptDescriptionPy actNullDesc = none :=
  ⟨rfl, rfl, rfl,
   ((c10_null_not_defaulted nullAthlete actNullDesc).2.2.1.2 rfl).1,
   ((c10_null_not_defaulted nullAthlete actNullDesc).2.2.1.2 rfl).2.1,
   ((c10_null_not_defaulted nullAthlete actNullDesc).1.2 rfl).1,
   ((c10_null_not_defaulted nullAthlete actNullDesc).1.2 rfl).2.2,
   ((c10_null_not_defaulted nullAthlete
       actNullDesc).2.2.2.2.2.2.2.2.2.2.1 rfl).1⟩

/-- C3 counterexample: with every optional key absent, the bio block of
`main` renders the first name with default "" (not the claimed "Athlete"),
and both sites render the last name as the empty string — so the two sites do
not substitute the same named defaults and blank fields are rendered. -/
theorem c3_counterexample :
    mainFirstName emptyAthlete = "" ∧
    mainFirstName emptyAthlete ≠ "Athlete" ∧
    promptLastName emptyAthlete = "" ∧
    mainLastName emptyAthlete = "" := by decide

/-- C3 amended: with every optional key absent, `construct_prompt`
substitutes "Athlete"/"No bio available."/"Unknown city"/"Unknown country"/
"Not specified" for first name, bio, city, country and gender, but renders
the last name as ""; the bio block of `main` substitutes the same defaults
for gender, city, country and bio but renders both name fields as "". -/
theorem c3_defaults_all_absent (athlete : Athlete)
    (h1 : athlete.firstname = none) (h2 : athlete.lastname = none)
    (h3 : athlete.bio = none) (h4 : athlete.city = none)
    (h5 : athlete.country = none) (h6 : athlete.sex = none) :
    promptFirstName athlete = "Athlete" ∧ promptLastName athlete = "" ∧
    promptBio athlete = "No bio available." ∧
    promptCity athlete = "Unknown city" ∧
    promptCountry athlete = "Unknown country" ∧
    promptSex athlete = "Not specified" ∧
    mainFirstName athlete = "" ∧ mainLastName athlete = "" ∧
    mainSex athlete = "Not specified" ∧ mainCity athlete = "Unknown city" ∧
    mainCountry athlete = "Unknown country" ∧
    mainBio athlete = "No bio available." := by
  simp [promptFirstName, promptLastName, promptBio, promptCity, promptCountry,
    promptSex, mainFirstName, mainLastName, mainSex, mainCity, mainCountry,
    mainBio, dictGet, pyStr, h1, h2, h3, h4, h5, h6]

/-- Witness for the amended C3 at the concrete all-absent athlete. -/
theorem c3_defaults_all_absent_witness :
    emptyAthlete.firstname = none ∧
    promptFirstName emptyAthlete = "Athlete" ∧
    mainFirstName emptyAthlete = "" :=
  ⟨rfl,
   (c3_defaults_all_absent emptyAthlete rfl rfl rfl rfl rfl rfl).1,
   (c3_defaults_all_absent emptyAthlete rfl rfl rfl rfl rfl rfl).2.2.2.2.2.2.1⟩

/-- C2: in the prompt's activity block the rendered text embeds, in order,
the original distance divided by 1000 formatted to 2 decimals, the original
moving time divided by 60 formatted to 1 decimal, the original average speed
multiplied by 3.6 formatted to 2 decimals, and the original elevation gain
formatted to 2 decimals; the detail view of `main` writes lines embedding the
same four conversions of the original fields.  Each conversion reads the
unmodified input field, so it is applied exactly once. -/
theorem c2_unit_conversions (idx : Nat) (activity : Activity) :
    (∃ p q, activityBlock idx activity =
        p ++ formatFixed (activity.distance.getD 0 / 1000) 2 ++ q) ∧
    (∃ p q, activityBlock idx activity =
        p ++ formatFixed (activity.moving_time.getD 0 / 60) 1 ++ q) ∧
    (∃ p q, activityBlock idx activity =
        p ++ formatFixed (activity.average_speed.getD 0 * (36 / 10)) 2 ++ q) ∧
    (∃ p q, activityBlock idx activity =
        p ++ formatFixed (activity.total_elevation_gain.getD 0) 2 ++ q) ∧
    ("- **Distance:** " ++ formatFixed (activity.distance.getD 0 / 1000) 2
        ++ " km") ∈ detailBlock idx activity ∧
    ("- **Moving Time:** " ++ formatFixed (activity.moving_time.getD 0 / 60) 1
        ++ " minutes") ∈ detailBlock idx activity ∧
    ("- **Average Speed:** "
        ++ formatFixed (activity.average_speed.getD 0 * (36 / 10)) 2
        ++ " km/h") ∈ detailBlock idx activity ∧
    ("- **Elevation Gain:** "
        ++ formatFixed (activity.total_elevation_gain.getD 0) 2
        ++ " m") ∈ detailBlock idx activity := by
  refine ⟨⟨"\nActivity " ++ toString idx ++ ":\n- Name: "
        ++ promptActName activity ++ "\n- Date: " ++ promptStartDate activity
        ++ "\n- Type: " ++ promptActType activity ++ "\n- Distance: ",
      " km" ++ "\n- Moving Time: " ++ formatFixed (promptMovingTime activity) 1
        ++ " minutes" ++ "\n- Average Speed: "
        ++ formatFixed (promptAverageSpeed activity) 2 ++ " km/h"
        ++ "\n- Elevation Gain: "
        ++ formatFixed (promptElevationGain activity) 2 ++ " m"
        ++ "\n- Description: " ++ promptDescription activity ++ "\n", ?_⟩,
    ⟨"\nActivity " ++ toString idx ++ ":\n- Name: "
        ++ promptActName activity ++ "\n- Date: " ++ promptStartDate activity
        ++ "\n- Type: " ++ promptActType activity ++ "\n- Distance: "
        ++ formatFixed (promptDistance activity) 2 ++ " km"
        ++ "\n- Moving Time: ",
      " minutes" ++ "\n- Average Speed: "
        ++ formatFixed (promptAverageSpeed activity) 2 ++ " km/h"
        ++ "\n- Elevation Gain: "
        ++ formatFixed (promptElevationGain activity) 2 ++ " m"
        ++ "\n- Description: " ++ promptDescription activity ++ "\n", ?_⟩,
    ⟨"\nActivity " ++ toString idx ++ ":\n- Name: "
        ++ promptActName activity ++ "\n- Date: " ++ promptStartDate activity
        ++ "\n- Type: " ++ promptActType activity ++ "\n- Distance: "
        ++ formatFixed (promptDistance activity) 2 ++ " km"
        ++ "\n- Moving Time: " ++ formatFixed (promptMovingTime activity) 1
        ++ " minutes" ++ "\n- Average Speed: ",
      " km/h" ++ "\n- Elevation Gain: "
        ++ formatFixed (promptElevationGain activity) 2 ++ " m"
        ++ "\n- Description: " ++ promptDescription activity ++ "\n", ?_⟩,
    ⟨"\nActivity " ++ toString idx ++ ":\n- Name: "
        ++ promptActName activity ++ "\n- Date: " ++ promptStartDate activity
        ++ "\n- Type: " ++ promptActType activity ++ "\n- Distance: "
        ++ formatFixed (promptDistance activity) 2 ++ " km"
        ++ "\n- Moving Time: " ++ formatFixed (promptMovingTime activity) 1
        ++ " minutes" ++ "\n- Average Speed: "
        ++ formatFixed (promptAverageSpeed activity) 2 ++ " km/h"
        ++ "\n- Elevation Gain: ",
      " m" ++ "\n- Description: " ++ promptDescription activity ++ "\n",
      ?_⟩,
    ?_, ?_, ?_, ?_⟩ <;>
  simp [activityBlock, detailBlock, promptDistance, promptMovingTime,
    promptAverageSpeed, promptElevationGain, detailDistance, detailMovingTime,
    detailAverageSpeed, detailElevationGain, dictGetNum, sappend_assoc]

/-- C4: with a stored token record whose `expires_at` is strictly before the
current time, `get_access_token` performs exactly one refresh exchange, the
refreshed record is persisted to the token file, and the refreshed access
token is returned; with a record not in the past, no refresh happens and the
stored access token is returned with the state unchanged. -/
theorem c4_expiry_refresh (env : AuthEnv) (s0 : S) (t t2 : Tokens)
    (hfile : s0.tokenFile = some t) :
    (t.expires_at < env.now → env.refreshResp t.refresh_token = .ok t2 →
        get_access_token env s0 =
          .ok (t2.access_token,
               save_tokens t2 { s0 with refreshCalls := s0.refreshCalls + 1 }) ∧
        (save_tokens t2
            { s0 with refreshCalls := s0.refreshCalls + 1 }).refreshCalls =
          s0.refreshCalls + 1 ∧
        (save_tokens t2
            { s0 with refreshCalls := s0.refreshCalls + 1 }).tokenFile =
          some t2) ∧
    (¬ t.expires_at < env.now →
        get_access_token env s0 = .ok (t.access_token, s0)) := by
  constructor
  · intro hexp hfr
    refine ⟨?_, rfl, rfl⟩
    simp [get_access_token, readOrExchange, refresh_access_token, hfile, hexp,
      hfr]
  · intro hexp
    exact get_access_token_fresh env s0 t hfile hexp

/-- Witness for C4: expired stored token, successful refresh. -/
theorem c4_expiry_refresh_witness :
    sInit.tokenFile = some cTokens ∧
    cTokens.expires_at < cEnvLate.now ∧
    cEnvLate.refreshResp cTokens.refresh_token = .ok cTokens2 ∧
    get_access_token cEnvLate sInit =
      .ok (cTokens2.access_token,
           save_tokens cTokens2
             { sInit with refreshCalls := sInit.refreshCalls + 1 }) :=
  ⟨rfl, by decide, rfl,
   ((c4_expiry_refresh cEnvLate sInit cTokens cTokens2 rfl).1
      (by decide) rfl).1⟩

/-- C8: a successful authorization-code or refresh exchange overwrites the
token file with the full returned record; a non-success response leaves the
token file unchanged, displays a message carrying the raw response body, and
makes `get_access_token` halt (`st.stop`, modelled as `.error`) instead of
returning a credential. -/
theorem c8_exchange_results (env : AuthEnv) (s : S) (t : Tokens)
    (rt body : String) :
    (env.exchangeResp = .ok t →
        exchange_authorization_code env s =
          (some t,
           save_tokens t { s with exchangeCalls := s.exchangeCalls + 1 }) ∧
        (save_tokens t
            { s with exchangeCalls := s.exchangeCalls + 1 }).tokenFile =
          some t) ∧
    (env.refreshResp rt = .ok t →
        refresh_access_token env rt s =
          (some t,
           save_tokens t { s with refreshCalls := s.refreshCalls + 1 }) ∧
        (save_tokens t
            { s with refreshCalls := s.refreshCalls + 1 }).tokenFile =
          some t) ∧
    (env.exchangeResp = .err body →
        (exchange_authorization_code env s).1 = none ∧
        (exchange_authorization_code env s).2.tokenFile = s.tokenFile ∧
        ("Error exchanging authorization code: " ++ body) ∈
          (exchange_authorization_code env s).2.displayed ∧
        (s.tokenFile = none →
          ∃ sh, get_access_token env s = .error sh)) ∧
    (env.refreshResp rt = .err body →
        (refresh_access_token env rt s).1 = none ∧
        (refresh_access_token env rt s).2.tokenFile = s.tokenFile ∧
        ("Error refreshing access token: " ++ body) ∈
          (refresh_access_token env rt s).2.displayed) ∧
    (s.tokenFile = some t → t.expires_at < env.now →
        env.refreshResp t.refresh_token = .err body →
        ∃ sh, get_access_token env s = .error sh) := by
  refine ⟨fun hok => ?_, fun hok => ?_, fun herr => ?_, fun herr => ?_,
    fun hfile hexp herr => ?_⟩
  · exact ⟨by simp [exchange_authorization_code, hok], rfl⟩
  · exact ⟨by simp [refresh_access_token, hok], rfl⟩
  · refine ⟨by simp [exchange_authorization_code, herr],
      by simp [exchange_authorization_code, herr, save_tokens, display],
      by simp [exchange_authorization_code, herr, display], fun hnone => ?_⟩
    refine ⟨display
        (display { s with exchangeCalls := s.exchangeCalls + 1 }
          ("Error exchanging authorization code: " ++ body))
        "Failed to obtain tokens.", ?_⟩
    simp [get_access_token, readOrExchange, exchange_authorization_code,
      hnone, herr]
  · exact ⟨by simp [refresh_access_token, herr],
      by simp [refresh_access_token, herr, save_tokens, display],
      by simp [refresh_access_token, herr, display]⟩
  · refine ⟨display
        (display { s with refreshCalls := s.refreshCalls + 1 }
          ("Error refreshing access token: " ++ body))
        "Failed to refresh tokens.", ?_⟩
    simp [get_access_token, readOrExchange, refresh_access_token, hfile,
      hexp, herr]

/-- Witness for C8: failed refresh of an expired stored token halts the
flow. -/
theorem c8_exchange_results_witness :
    sInit.tokenFile = some cTokens ∧
    ∃ sh, get_access_token
        { exchangeResp := .err "bad code",
          refreshResp := fun _ => .err "bad refresh", now := 500 }
        sInit = .error sh :=
  ⟨rfl,
   (c8_exchange_results
      { exchangeResp := .err "bad code",
        refreshResp := fun _ => .err "bad refresh", now := 500 }
      sInit cTokens "r" "bad refresh").2.2.2.2 rfl (by decide) rfl⟩

/-- C5 counterexample: at a concrete run with a valid stored token, a
successful profile fetch and an empty activities list, `main` completes and
displays exactly the title, the intro text and "No activities found." — the
athlete profile (the "Your Bio" block) is never rendered, contrary to the
claim that the profile is shown. -/
theorem c5_counterexample :
    main cEnv cMainEnvEmpty sInit =
      .ok { tokenFile := some cTokens,
            displayed := [titleMsg, introMsg, "No activities found."],
            exchangeCalls := 0, refreshCalls := 0, fetchCalls := 2 } ∧
    "Your Bio" ∉ [titleMsg, introMsg, "No activities found."] := by
  exact ⟨rfl, by decide⟩

/-- C5 amended: whenever the activities fetch yields the empty list — a
successful empty response, or the failure case in which `get_activities`
displays the fetch error and returns the empty list — `main` still completes
without halting and displays "No activities found.", but the athlete profile
block is not rendered: the full output is exactly the title, the intro text,
the fetch error message in the failure case, and the message. -/
theorem c5_empty_activities (env : AuthEnv) (menv : MainEnv) (s0 : S)
    (t : Tokens) (athlete : Athlete) (body : String)
    (hfile : s0.tokenFile = some t) (hexp : ¬ t.expires_at < env.now)
    (hath : menv.athleteResp = .ok athlete) :
    (menv.activitiesResp = .ok [] →
      main env menv s0 =
        .ok { s0 with
              displayed :=
                s0.displayed ++ [titleMsg, introMsg, "No activities found."],
              fetchCalls := s0.fetchCalls + 2 }) ∧
    (menv.activitiesResp = .err body →
      main env menv s0 =
        .ok { s0 with
              displayed :=
                s0.displayed ++
                  [titleMsg, introMsg,
                   "Error fetching activities: " ++ body,
                   "No activities found."],
              fetchCalls := s0.fetchCalls + 2 }) := by
  constructor
  · intro hacts
    simp only [main]
    rw [get_access_token_fresh env _ t (by simp [hfile]) hexp]
    simp [get_athlete_profile, hath, get_activities, hacts, display]
  · intro hacts
    simp only [main]
    rw [get_access_token_fresh env _ t (by simp [hfile]) hexp]
    simp [get_athlete_profile, hath, get_activities, hacts, display]

/-- Witness for the amended C5, exercising both the successful-empty fetch
and the failed fetch. -/
theorem c5_empty_activities_witness :
    sInit.tokenFile = some cTokens ∧
    ¬ cTokens.expires_at < cEnv.now ∧
    cMainEnvFail.activitiesResp = .err "boom" ∧
    main cEnv cMainEnvEmpty sInit =
      .ok { sInit with
            displayed :=
              sInit.displayed ++ [titleMsg, introMsg, "No activities found."],
            fetchCalls := sInit.fetchCalls + 2 } ∧
    main cEnv cMainEnvFail sInit =
      .ok { sInit with
            displayed :=
              sInit.displayed ++
                [titleMsg, introMsg, "Error fetching activities: " ++ "boom",
                 "No activities found."],
            fetchCalls := sInit.fetchCalls + 2 } :=
  ⟨rfl, by decide, rfl,
   (c5_empty_activities cEnv cMainEnvEmpty sInit cTokens emptyAthlete "boom"
      rfl (by decide) rfl).1 rfl,
   (c5_empty_activities cEnv cMainEnvFail sInit cTokens emptyAthlete "boom"
      rfl (by decide) rfl).2 rfl⟩

/-- C6: if the completion call raises, `generate_roast` returns the literal
"Error generating roast: " followed by the exception detail; if it succeeds,
the content is returned verbatim; and in the failure case `main` still runs
to completion (returns `.ok`) with the error string displayed. -/
theorem c6_generation_error_recovery
    (completionResp : String → Except String String) (prompt e roast : String)
    (env : AuthEnv) (menv : MainEnv) (s0 : S) (t : Tokens) (athlete : Athlete)
    (activities : List Activity) :
    (completionResp prompt = .error e →
        generate_roast completionResp prompt =
          "Error generating roast: " ++ e) ∧
    (completionResp prompt = .ok roast →
        generate_roast completionResp prompt = roast) ∧
    (s0.tokenFile = some t → ¬ t.expires_at < env.now →
     menv.athleteResp = .ok athlete →
     menv.activitiesResp = .ok activities → activities.isEmpty = false →
     menv.completionResp (construct_prompt athlete activities) = .error e →
     ∃ s2, main env menv s0 = .ok s2 ∧
        ("Error generating roast: " ++ e) ∈ s2.displayed) := by
  refine ⟨fun h => by simp [generate_roast, h],
    fun h => by simp [generate_roast, h],
    fun hfile hexp hath hacts hne hcomp => ?_⟩
  simp only [main]
  rw [get_access_token_fresh env _ t (by simp [hfile]) hexp]
  simp only [get_athlete_profile, hath, get_activities, hacts, hne,
    Bool.false_eq_true, if_false]
  refine ⟨_, rfl, ?_⟩
  simp [generate_roast, hcomp, display]

/-- Witness for C6: one activity, completion call raising "api down". -/
theorem c6_generation_error_recovery_witness :
    cMainEnvOne.completionResp (construct_prompt emptyAthlete [actLong]) =
      .error "api down" ∧
    ∃ s2, main cEnv cMainEnvOne sInit = .ok s2 ∧
      ("Error generating roast: " ++ "api down") ∈ s2.displayed :=
  ⟨rfl,
   (c6_generation_error_recovery cMainEnvOne.completionResp
      (construct_prompt emptyAthlete [actLong]) "api down" "unused"
      cEnv cMainEnvOne sInit cTokens emptyAthlete [actLong]).2.2
      rfl (by decide) rfl rfl rfl rfl⟩

/-- C7 counterexample: a configuration in which every required value is
present but the client id is the empty string.  The claim states startup
proceeds whenever all values are present, yet the program halts. -/
theorem c7_counterexample :
    (Config.mk (some "") (some "secret") (some "code")
        (some "key")).CLIENT_ID ≠ none ∧
    (Config.mk (some "") (some "secret") (some "code")
        (some "key")).CLIENT_SECRET ≠ none ∧
    (Config.mk (some "") (some "secret") (some "code")
        (some "key")).AUTHORIZATION_CODE ≠ none ∧
    (Config.mk (some "") (some "secret") (some "code")
        (some "key")).OPENAI_API_KEY ≠ none ∧
    startup (Config.mk (some "") (some "secret") (some "code") (some "key"))
        sNoFile =
      .error (display sNoFile
        "Please ensure all credentials are set in the .env file.") := by
  refine ⟨by decide, by decide, by decide, by decide, rfl⟩

/-- C7 amended: if any required configuration value is absent (or present but
empty, which Python's truthiness test also rejects), the program displays the
configuration error and halts with no network call performed; if all four
values are present and non-empty, startup proceeds to `main`. -/
theorem c7_startup_validation (c : Config) (env : AuthEnv) (menv : MainEnv)
    (s0 : S) :
    ((c.CLIENT_ID = none ∨ c.CLIENT_SECRET = none ∨
      c.AUTHORIZATION_CODE = none ∨ c.OPENAI_API_KEY = none ∨
      c.CLIENT_ID = some "" ∨ c.CLIENT_SECRET = some "" ∨
      c.AUTHORIZATION_CODE = some "" ∨ c.OPENAI_API_KEY = some "") →
        program c env menv s0 =
          .error (display s0
            "Please ensure all credentials are set in the .env file.") ∧
        (display s0
            "Please ensure all credentials are set in the .env file.").displayed
          = s0.displayed ++
            ["Please ensure all credentials are set in the .env file."] ∧
        networkCalls (display s0
            "Please ensure all credentials are set in the .env file.") =
          networkCalls s0) ∧
    (∀ a b d k, c = Config.mk (some a) (some b) (some d) (some k) →
        a ≠ "" → b ≠ "" → d ≠ "" → k ≠ "" →
        startup c s0 = .ok s0 ∧
        program c env menv s0 = main env menv s0) := by
  constructor
  · intro h
    have hmiss : missingCredentials c = true := by
      rcases h with h | h | h | h | h | h | h | h <;>
        simp [missingCredentials, falsyEnv, h]
    refine ⟨?_, rfl, rfl⟩
    simp [program, startup, hmiss]
  · intro a b d k hc ha hb hd hk
    subst hc
    have hmiss : missingCredentials (Config.mk (some a) (some b) (some d)
        (some k)) = false := by
      simp [missingCredentials, falsyEnv, ha, hb, hd, hk]
    exact ⟨by simp [startup, hmiss], by simp [program, startup, hmiss]⟩

/-- Witness for the amended C7: one absent value halts with no network
activity; a fully populated configuration proceeds. -/
theorem c7_startup_validation_witness :
    (Config.mk none (some "secret") (some "code") (some "key")).CLIENT_ID
      = none ∧
    program (Config.mk none (some "secret") (some "code") (some "key"))
        cEnv cMainEnvEmpty sNoFile =
      .error (display sNoFile
        "Please ensure all credentials are set in the .env file.") ∧
    startup (Config.mk (some "id") (some "secret") (some "code") (some "key"))
        sNoFile = .ok sNoFile :=
  ⟨rfl,
   ((c7_startup_validation
       (Config.mk none (some "secret") (some "code") (some "key"))
       cEnv cMainEnvEmpty sNoFile).1 (Or.inl rfl)).1,
   ((c7_startup_validation
       (Config.mk (some "id") (some "secret") (some "code") (some "key"))
       cEnv cMainEnvEmpty sNoFile).2 "id" "secret" "code" "key" rfl
       (by decide) (by decide) (by decide) (by decide)).1⟩

end Roast
